import Mathlib

/-!
Shallow embedding of the unicycle4t lifecycle-management core
(DefaultLifecycleManager, MemoryLifecycleDao, DefaultLifecycleFactory,
LifecycleObject, the built-in lifecycle states and the LifecycleError
kind), together with theorems settling the specification claims.

Modelling conventions:
* JavaScript object identity is modelled by a heap: `Ref` (a natural
  number) plays the role of an object reference, and a `Heap` maps every
  reference to a `LifecycleObject` record.  In-place mutation of an
  object is an update of the heap cell; two observations are
  reference-equal exactly when they yield the same `Ref`.
* Timestamps (`new Date()` in the source) are modelled by a logical
  clock carried in the manager state; each Date construction reads the
  current instant and advances the clock, so successive timestamps are
  strictly increasing, a refinement of real wall-clock monotonicity.
* The mitt event emitter is modelled by an append-only event log: one
  `emit` appends one `Event`.  Emission is synchronous in the source, so
  a listener dispatched for an event observes exactly the heap and the
  storage of the manager state at the moment of the append (emission
  itself changes neither heap nor storage).
* Asynchronous functions in the source complete sequentially (each call
  is awaited); they are embedded as plain state-passing functions, with
  a thrown exception embedded as `Except.error`.
-/

namespace Unicycle4T

/-- Identifier of a lifecycle object: the source type ObjectId is the
union of string and number. -/
inductive ObjectId where
  | str (s : String)
  | num (n : Int)
deriving DecidableEq, Repr

/-- Rendering of an ObjectId inside a template literal, as in the
not-found error message of changeState. -/
def ObjectId.render : ObjectId → String
  | .str s => s
  | .num n => toString n

/-- Attribute and state-payload values: the source stores arbitrary
runtime values (unknown); a small closed universe suffices for the
claims. -/
inductive AttrValue where
  | str (s : String)
  | int (n : Int)
  | bool (b : Bool)
  | null
deriving DecidableEq, Repr

/-- LifecycleState from types.ts: a tagged value with a required name
field; consumers may attach arbitrary extra payload fields (modelled as
a key-value list), which the core machinery carries but never
inspects. -/
structure LifecycleState where
  name : String
  payload : List (String × AttrValue)
deriving DecidableEq, Repr

/-- Built-in state assigned by the LifecycleObject constructor. -/
def LifecycleCreatedState : LifecycleState := ⟨"created", []⟩

/-- Built-in state used by startObject. -/
def LifecycleStartedState : LifecycleState := ⟨"started", []⟩

/-- Built-in state used by stopObject. -/
def LifecycleStoppedState : LifecycleState := ⟨"stopped", []⟩

/-- LifecycleError from errors.ts: the single error kind raised by the
core; only the message is observable for the claims. -/
structure LifecycleError where
  message : String
deriving DecidableEq, Repr

/-- LifecycleObject from lifecycleObject.ts: identity, current state,
creation and update timestamps, and the private attribute map (a
JavaScript Map, embedded as an insertion-ordered key-value list with
unique keys). The id field is definitely-assigned later by setId; before
assignment it holds the empty placeholder. -/
structure LifecycleObject where
  id : ObjectId
  state : LifecycleState
  createdAt : Nat
  updatedAt : Nat
  attributes : List (String × AttrValue)
deriving DecidableEq, Repr

/-- Constructor of LifecycleObject: createdAt and updatedAt are the same
Date instant and the state starts as the created state. -/
def LifecycleObject.mkNew (now : Nat) : LifecycleObject :=
  { id := ObjectId.str ""
    state := LifecycleCreatedState
    createdAt := now
    updatedAt := now
    attributes := [] }

/-- Modelled from the spec: LifecycleObject.setId is called by the
manager but the primary lifecycleObject.ts exposes id as a public field
with no accessor; per the spec the identifier is assigned exactly once
at creation, so the operation assigns the id field in place and nothing
else. -/
def LifecycleObject.setId (o : LifecycleObject) (id : ObjectId) : LifecycleObject :=
  { o with id := id }

/-- Modelled from the spec: LifecycleObject.setState is called by the
manager but the primary lifecycleObject.ts exposes state as a public
field with no accessor; per the spec design note (no automatic updatedAt
refresh on state change, the intended behaviour) the operation assigns
the state field in place and nothing else. -/
def LifecycleObject.setState (o : LifecycleObject) (st : LifecycleState) : LifecycleObject :=
  { o with state := st }

/-- Lookup in a JavaScript Map embedded as a key-value list (Map.get). -/
def attrGet : List (String × AttrValue) → String → Option AttrValue
  | [], _ => none
  | (k0, v0) :: rest, k => if k0 = k then some v0 else attrGet rest k

/-- Map.set semantics: replace the value in place when the key exists
(keeping its position), otherwise append the new entry. -/
def attrSet : List (String × AttrValue) → String → AttrValue → List (String × AttrValue)
  | [], k, v => [(k, v)]
  | (k0, v0) :: rest, k, v =>
    if k0 = k then (k, v) :: rest else (k0, v0) :: attrSet rest k v

/-- Map.delete semantics on the attribute map: remove the binding of the
key (keys are unique, so at most one entry is removed). -/
def attrDelete : List (String × AttrValue) → String → List (String × AttrValue)
  | [], _ => []
  | (k0, v0) :: rest, k =>
    if k0 = k then attrDelete rest k else (k0, v0) :: attrDelete rest k

/-- Object reference: models JavaScript object identity. -/
abbrev Ref := Nat

/-- Heap of live lifecycle objects: total map from references to object
records, plus the next fresh reference.  Unallocated cells hold an inert
default record and are never reachable through the storage map. -/
structure Heap where
  cells : Ref → LifecycleObject
  next : Ref

/-- Overwriting one heap cell (an in-place mutation of the referenced
object). -/
def Heap.set (h : Heap) (r : Ref) (o : LifecycleObject) : Heap :=
  { h with cells := fun n => if n = r then o else h.cells n }

/-- Allocation of a fresh object (the new operator). -/
def Heap.alloc (h : Heap) (o : LifecycleObject) : Ref × Heap :=
  (h.next, { cells := fun n => if n = h.next then o else h.cells n, next := h.next + 1 })

/-- Lookup in the MemoryLifecycleDao storage Map (Map.get, absent is
null). -/
def daoGet : List (ObjectId × Ref) → ObjectId → Option Ref
  | [], _ => none
  | (k0, r0) :: rest, id => if k0 = id then some r0 else daoGet rest id

/-- Map.set semantics on the storage Map, shared by the create and
update operations of MemoryLifecycleDao (both are storage.set). -/
def daoSet : List (ObjectId × Ref) → ObjectId → Ref → List (ObjectId × Ref)
  | [], k, r => [(k, r)]
  | (k0, r0) :: rest, k, r =>
    if k0 = k then (k, r) :: rest else (k0, r0) :: daoSet rest k r

/-- Map.delete semantics on the storage Map (MemoryLifecycleDao.delete);
keys are unique, so at most one entry is removed. -/
def daoDelete : List (ObjectId × Ref) → ObjectId → List (ObjectId × Ref)
  | [], _ => []
  | (k0, r0) :: rest, k =>
    if k0 = k then daoDelete rest k else (k0, r0) :: daoDelete rest k

/-- Events emitted on the manager event channel, with the payload shapes
of types.ts.  The object field of the created and stateChanged payloads
carries the object by reference, as in the source. -/
inductive Event where
  | objectCreated (object : Ref) (timestamp : Nat)
  | objectStateChanged (object : Ref) (oldState : LifecycleState)
      (newState : LifecycleState) (timestamp : Nat)
  | objectDeleted (objectId : ObjectId) (timestamp : Nat)
deriving DecidableEq, Repr

/-- Whole state of one DefaultLifecycleManager built with the default
collaborators (MemoryLifecycleDao, DefaultLifecycleFactory,
UuidLifecycleIdGenerator): the heap of live objects, the storage map of
the in-memory dao, the logical clock, the id-generation counter and the
log of emitted events in emission order. -/
structure ManagerState where
  heap : Heap
  storage : List (ObjectId × Ref)
  clock : Nat
  uuidCtr : Nat
  events : List Event

/-- Date construction: read the current instant and advance the clock. -/
def ManagerState.now (s : ManagerState) : Nat × ManagerState :=
  (s.clock, { s with clock := s.clock + 1 })

/-- Synchronous event emission (mitt emit): append to the event log.
All listeners run before emit returns, observing the heap and storage of
the state at the append. -/
def emit (e : Event) (s : ManagerState) : ManagerState :=
  { s with events := s.events ++ [e] }

/-- Modelled from the spec: UuidLifecycleIdGenerator delegates to the
external uuid package (v4), which is not part of this repository; the
spec requires the generated identifier to be non-empty and unique across
the lifetime of one store, so it is modelled as a fresh non-empty string
derived from a per-manager counter. -/
def uuidString (n : Nat) : String := "uuid-" ++ Nat.repr n

/-- DefaultLifecycleFactory.create: construct a blank LifecycleObject
and, when an initialAttributes mapping is supplied, seed it via
setAttributes (which also refreshes updatedAt with a fresh Date). -/
def factoryCreate (initialAttributes : Option (List (String × AttrValue)))
    (s : ManagerState) : Ref × ManagerState :=
  let (t0, s0) := s.now
  let o := LifecycleObject.mkNew t0
  match initialAttributes with
  | none =>
    let (r, h) := s0.heap.alloc o
    (r, { s0 with heap := h })
  | some m =>
    let (t1, s1) := s0.now
    let o1 := { o with
      attributes := m.foldl (fun acc kv => attrSet acc kv.1 kv.2) o.attributes
      updatedAt := t1 }
    let (r, h) := s1.heap.alloc o1
    (r, { s1 with heap := h })

/-- DefaultLifecycleManager.createObject: ask the factory for a blank
object (the source passes no arguments to factory.create), assign a
fresh generated id via setId, persist through dao.create (storage.set
keyed by the object id), then emit object:created with the object and a
fresh timestamp, and return the object reference. -/
def createObject (s : ManagerState) : Ref × ManagerState :=
  let (r, s1) := factoryCreate none s
  let id := ObjectId.str (uuidString s1.uuidCtr)
  let s2 := { s1 with
    heap := s1.heap.set r ((s1.heap.cells r).setId id)
    uuidCtr := s1.uuidCtr + 1 }
  let s3 := { s2 with storage := daoSet s2.storage ((s2.heap.cells r).id) r }
  let (t, s4) := s3.now
  (r, emit (Event.objectCreated r t) s4)

/-- Call of createObject with an initialProperties mapping supplied by
the caller: the source method declares no parameter, so in JavaScript
the extra argument is ignored at runtime and the factory is invoked with
no arguments. -/
def createObjectWithProps (_initialProperties : List (String × AttrValue))
    (s : ManagerState) : Ref × ManagerState :=
  createObject s

/-- DefaultLifecycleManager.getObject: delegate to dao.get. -/
def getObject (id : ObjectId) (s : ManagerState) : Option Ref :=
  daoGet s.storage id

/-- Input of the overloaded changeState routine: either an identifier to
resolve through the store, or an already-resolved object reference. -/
inductive TransitionTarget where
  | byId (id : ObjectId)
  | byRef (r : Ref)

/-- DefaultLifecycleManager.onChange: persist the mutated object through
dao.update, which is storage.set keyed by the object id. -/
def onChange (r : Ref) (s : ManagerState) : ManagerState :=
  { s with storage := daoSet s.storage ((s.heap.cells r).id) r }

/-- Success path of changeState once the subject object is resolved:
capture oldState, assign the new state in place (plain field assignment;
the source LifecycleObject exposes state as a public field, and per the
spec design note state reassignment does not refresh updatedAt), persist
via onChange, then emit object:stateChanged with a fresh timestamp. -/
def changeStateResolved (r : Ref) (st : LifecycleState)
    (s : ManagerState) : Except LifecycleError Unit × ManagerState :=
  let o := s.heap.cells r
  let oldState := o.state
  let s1 := { s with heap := s.heap.set r (o.setState st) }
  let s2 := onChange r s1
  let (t, s3) := s2.now
  (Except.ok (), emit (Event.objectStateChanged r oldState st t) s3)

/-- DefaultLifecycleManager.changeState: resolve the target (an id is
looked up through getObject; an object reference is used directly),
throw the not-found LifecycleError naming the id when resolution fails,
and otherwise run the shared success path. -/
def changeState (target : TransitionTarget) (st : LifecycleState)
    (s : ManagerState) : Except LifecycleError Unit × ManagerState :=
  match target with
  | .byId id =>
    match daoGet s.storage id with
    | none =>
      (Except.error { message := "Lifecycle object not found: " ++ id.render }, s)
    | some r => changeStateResolved r st s
  | .byRef r => changeStateResolved r st s

/-- DefaultLifecycleManager.startObject. -/
def startObject (id : ObjectId) (s : ManagerState) :
    Except LifecycleError Unit × ManagerState :=
  changeState (.byId id) LifecycleStartedState s

/-- DefaultLifecycleManager.stopObject. -/
def stopObject (id : ObjectId) (s : ManagerState) :
    Except LifecycleError Unit × ManagerState :=
  changeState (.byId id) LifecycleStoppedState s

/-- DefaultLifecycleManager.deleteObject: remove from the store via
dao.delete, then unconditionally emit object:deleted with the identifier
and a fresh timestamp. -/
def deleteObject (id : ObjectId) (s : ManagerState) : ManagerState :=
  let s1 := { s with storage := daoDelete s.storage id }
  let (t, s2) := s1.now
  emit (Event.objectDeleted id t) s2

/-- LifecycleObject.setAttribute performed on the object referenced by
r: Map.set on the attribute map, then refresh updatedAt with a fresh
Date.  The method performs no store I/O. -/
def setAttribute (r : Ref) (k : String) (v : AttrValue)
    (s : ManagerState) : ManagerState :=
  let o := s.heap.cells r
  let (t, s1) := s.now
  let o1 := { o with attributes := attrSet o.attributes k v, updatedAt := t }
  { s1 with heap := s1.heap.set r o1 }

/-- LifecycleObject.setAttributes performed on the object referenced by
r: Map.set for every supplied entry, then one refresh of updatedAt. -/
def setAttributes (r : Ref) (m : List (String × AttrValue))
    (s : ManagerState) : ManagerState :=
  let o := s.heap.cells r
  let (t, s1) := s.now
  let o1 := { o with
    attributes := m.foldl (fun acc kv => attrSet acc kv.1 kv.2) o.attributes
    updatedAt := t }
  { s1 with heap := s1.heap.set r o1 }

/-- LifecycleObject.deleteAttribute performed on the object referenced
by r: Map.delete, and only when an entry was actually removed refresh
updatedAt; the boolean tells whether a removal happened. -/
def deleteAttribute (r : Ref) (k : String)
    (s : ManagerState) : Bool × ManagerState :=
  let o := s.heap.cells r
  match attrGet o.attributes k with
  | none => (false, s)
  | some _ =>
    let (t, s1) := s.now
    let o1 := { o with attributes := attrDelete o.attributes k, updatedAt := t }
    (true, { s1 with heap := s1.heap.set r o1 })

/-- Freshly constructed DefaultLifecycleManager with the default
collaborators: empty storage, empty event log, clock and id counter at
zero, no live objects. -/
def initialManager : ManagerState :=
  { heap := { cells := fun _ => LifecycleObject.mkNew 0, next := 0 }
    storage := []
    clock := 0
    uuidCtr := 0
    events := [] }

/-- State after createObject on a fresh manager (used by the concrete
scenario and the witnesses). -/
def scenarioS1 : ManagerState := (createObject initialManager).2

/-- Reference returned by createObject on a fresh manager. -/
def scenarioRef : Ref := (createObject initialManager).1

/-- Identifier of the object created on a fresh manager. -/
def scenarioId : ObjectId := (scenarioS1.heap.cells scenarioRef).id

/-- State after createObject then startObject. -/
def scenarioS2 : ManagerState := (startObject scenarioId scenarioS1).2

/-- State after createObject, startObject, stopObject. -/
def scenarioS3 : ManagerState := (stopObject scenarioId scenarioS2).2

/-- State after the full createObject, startObject, stopObject,
deleteObject scenario on a fresh manager. -/
def scenarioFinal : ManagerState := deleteObject scenarioId scenarioS3

theorem daoGet_daoSet_self (l : List (ObjectId × Ref)) (k : ObjectId) (r : Ref) :
    daoGet (daoSet l k r) k = some r := by
  induction l with
  | nil => simp [daoSet, daoGet]
  | cons hd tl ih =>
    obtain ⟨k0, r0⟩ := hd
    by_cases h : k0 = k
    · simp [daoSet, daoGet, h]
    · simp [daoSet, daoGet, h, ih]

theorem daoGet_daoSet_ne (l : List (ObjectId × Ref)) (k id : ObjectId) (r : Ref)
    (h : id ≠ k) : daoGet (daoSet l k r) id = daoGet l id := by
  have hk : ¬k = id := fun hh => h hh.symm
  induction l with
  | nil => simp [daoSet, daoGet, hk]
  | cons hd tl ih =>
    obtain ⟨k0, r0⟩ := hd
    by_cases h0 : k0 = k
    · subst h0
      simp [daoSet, daoGet, hk]
    · simp [daoSet, daoGet, h0, ih]

theorem daoGet_daoSet_of_get (l : List (ObjectId × Ref)) (id k : ObjectId) (r : Ref)
    (h : daoGet l id = some r) : daoGet (daoSet l k r) id = some r := by
  by_cases hk : id = k
  · subst hk
    exact daoGet_daoSet_self l id r
  · rw [daoGet_daoSet_ne l k id r hk]
    exact h

theorem daoGet_daoDelete_self (l : List (ObjectId × Ref)) (k : ObjectId) :
    daoGet (daoDelete l k) k = none := by
  induction l with
  | nil => simp [daoDelete, daoGet]
  | cons hd tl ih =>
    obtain ⟨k0, r0⟩ := hd
    by_cases h : k0 = k
    · simp [daoDelete, daoGet, h, ih]
    · simp [daoDelete, daoGet, h, ih]

theorem attrGet_attrSet_self (l : List (String × AttrValue)) (k : String) (v : AttrValue) :
    attrGet (attrSet l k v) k = some v := by
  induction l with
  | nil => simp [attrSet, attrGet]
  | cons hd tl ih =>
    obtain ⟨k0, v0⟩ := hd
    by_cases h : k0 = k
    · simp [attrSet, attrGet, h]
    · simp [attrSet, attrGet, h, ih]

theorem uuidString_ne_empty (n : Nat) : uuidString n ≠ "" := by
  intro h
  have h2 : (uuidString n).data = [] := by rw [h]
  have h3 : (uuidString n).data = 'u' :: 'u' :: 'i' :: 'd' :: '-' :: (Nat.repr n).data := rfl
  rw [h3] at h2
  exact List.noConfusion h2

theorem changeState_byId_resolved (s : ManagerState) (id : ObjectId) (r : Ref)
    (st : LifecycleState) (h : daoGet s.storage id = some r) :
    changeState (.byId id) st s = changeStateResolved r st s := by
  simp [changeState, h]

/-- Claim C2: on a freshly created manager, the call sequence
createObject, then startObject, stopObject and deleteObject on the
returned object id emits exactly the event sequence object:created,
object:stateChanged to the state named started, object:stateChanged to
the state named stopped, object:deleted carrying that id — in that exact
order with no other events — and both transitions succeed. -/
theorem fullScenario_events :
    scenarioFinal.events = [Event.objectCreated scenarioRef 1,
        Event.objectStateChanged scenarioRef LifecycleCreatedState LifecycleStartedState 2,
        Event.objectStateChanged scenarioRef LifecycleStartedState LifecycleStoppedState 3,
        Event.objectDeleted scenarioId 4] ∧
    LifecycleStartedState.name = "started" ∧
    LifecycleStoppedState.name = "stopped" ∧
    (startObject scenarioId scenarioS1).1 = Except.ok () ∧
    (stopObject scenarioId scenarioS2).1 = Except.ok () := by
  exact ⟨rfl, rfl, rfl, rfl, rfl⟩

/-- Claim C4: deleteObject is total (it never fails), and on every
manager state and every identifier — present in the store or not — it
appends exactly one object:deleted event carrying that identifier and
the current timestamp, after which getObject on that identifier returns
absent. -/
theorem deleteObject_spec (s : ManagerState) (id : ObjectId) :
    (deleteObject id s).events = s.events ++ [Event.objectDeleted id s.clock] ∧
    getObject id (deleteObject id s) = none := by
  constructor
  · simp [deleteObject, ManagerState.now, emit]
  · simp [deleteObject, ManagerState.now, emit, getObject, daoGet_daoDelete_self]

/-- Claim C6: for every call to createObject on a manager, the returned
object carries a non-empty identifier, getObject with that identifier
immediately afterwards resolves to the created object, and exactly one
object:created event carrying that object and a timestamp no earlier
than the clock at the start of the call is already in the log when
createObject returns (emission is synchronous). -/
theorem createObject_spec (s : ManagerState) :
    (∃ str, ((createObject s).2.heap.cells (createObject s).1).id = ObjectId.str str ∧
      str ≠ "") ∧
    getObject ((createObject s).2.heap.cells (createObject s).1).id (createObject s).2
      = some (createObject s).1 ∧
    ∃ t, (createObject s).2.events = s.events ++ [Event.objectCreated (createObject s).1 t] ∧
      s.clock ≤ t := by
  refine ⟨⟨uuidString s.uuidCtr, ?_, uuidString_ne_empty _⟩, ?_,
    ⟨s.clock + 1, ?_, Nat.le_succ _⟩⟩
  · simp [createObject, factoryCreate, ManagerState.now, Heap.alloc, Heap.set, emit,
      LifecycleObject.setId]
  · simp [createObject, factoryCreate, ManagerState.now, Heap.alloc, Heap.set, emit,
      LifecycleObject.setId, getObject, daoGet_daoSet_self]
  · simp [createObject, factoryCreate, ManagerState.now, Heap.alloc, Heap.set, emit,
      LifecycleObject.setId]

/-- Claim C1: startObject and stopObject are instances of the shared
changeState routine, and on every resolvable identifier the success path
of changeState is exactly: mutate the object state in place, persist the
mutated object through the store update (onChange), then emit the
object:stateChanged event — so the post state equals the emission nested
outermost around persistence around mutation.  Emission only appends to
the log, so a listener dispatched for that event observes the heap and
storage of the post state: there getObject on the identifier resolves to
the same object and its state is already the persisted new state. -/
theorem transition_order_spec (s : ManagerState) (id : ObjectId) (r : Ref)
    (st : LifecycleState) (h : getObject id s = some r) :
    startObject id s = changeState (TransitionTarget.byId id) LifecycleStartedState s ∧
    stopObject id s = changeState (TransitionTarget.byId id) LifecycleStoppedState s ∧
    (changeState (TransitionTarget.byId id) st s).1 = Except.ok () ∧
    (changeState (TransitionTarget.byId id) st s).2
      = emit (Event.objectStateChanged r (s.heap.cells r).state st s.clock)
          (onChange r
            { s with heap := s.heap.set r ((s.heap.cells r).setState st) }).now.2 ∧
    (changeState (TransitionTarget.byId id) st s).2.events
      = s.events ++ [Event.objectStateChanged r (s.heap.cells r).state st s.clock] ∧
    getObject id (changeState (TransitionTarget.byId id) st s).2 = some r ∧
    ((changeState (TransitionTarget.byId id) st s).2.heap.cells r).state = st := by
  unfold getObject at h
  rw [changeState_byId_resolved s id r st h]
  refine ⟨rfl, rfl, rfl, ?_, ?_, ?_, ?_⟩
  · simp [changeStateResolved, onChange, ManagerState.now, emit, Heap.set, LifecycleObject.setState]
  · simp [changeStateResolved, onChange, ManagerState.now, emit, Heap.set, LifecycleObject.setState]
  · simp [changeStateResolved, onChange, ManagerState.now, emit, getObject, Heap.set,
      LifecycleObject.setState, LifecycleObject.setId, h, daoGet_daoSet_of_get]
  · simp [changeStateResolved, onChange, ManagerState.now, emit, Heap.set, LifecycleObject.setState]

/-- Claim C3: on every identifier that the store cannot resolve, both
startObject and stopObject fail with the LifecycleError whose message is
the not-found text followed by that identifier, so the message includes
the identifier. -/
theorem notFound_error_spec (s : ManagerState) (id : ObjectId)
    (h : getObject id s = none) :
    (startObject id s).1
      = Except.error { message := "Lifecycle object not found: " ++ id.render } ∧
    (stopObject id s).1
      = Except.error { message := "Lifecycle object not found: " ++ id.render } := by
  unfold getObject at h
  constructor
  · simp [startObject, changeState, h]
  · simp [stopObject, changeState, h]

/-- Claim C7: the transition routine places no precondition on the
current state: on every resolvable identifier, stopObject succeeds even
without a prior startObject, and any caller-supplied target state —
including a custom state carrying extra payload fields — is accepted by
the shared changeState path, recorded exactly as supplied, and is
retrievable afterwards with its name and extra payload intact. -/
theorem open_state_machine_spec (s : ManagerState) (id : ObjectId) (r : Ref)
    (st : LifecycleState) (h : getObject id s = some r) :
    (stopObject id s).1 = Except.ok () ∧
    (changeState (TransitionTarget.byId id) st s).1 = Except.ok () ∧
    getObject id (changeState (TransitionTarget.byId id) st s).2 = some r ∧
    ((changeState (TransitionTarget.byId id) st s).2.heap.cells r).state = st ∧
    ((changeState (TransitionTarget.byId id) st s).2.heap.cells r).state.name = st.name ∧
    ((changeState (TransitionTarget.byId id) st s).2.heap.cells r).state.payload
      = st.payload := by
  unfold getObject at h
  have hstop : stopObject id s = changeStateResolved r LifecycleStoppedState s := by
    unfold stopObject
    exact changeState_byId_resolved s id r LifecycleStoppedState h
  rw [changeState_byId_resolved s id r st h]
  refine ⟨?_, rfl, ?_, ?_, ?_, ?_⟩
  · rw [hstop]
    rfl
  · simp [changeStateResolved, onChange, ManagerState.now, emit, getObject, Heap.set,
      LifecycleObject.setState, LifecycleObject.setId, h, daoGet_daoSet_of_get]
  · simp [changeStateResolved, onChange, ManagerState.now, emit, Heap.set, LifecycleObject.setState]
  · simp [changeStateResolved, onChange, ManagerState.now, emit, Heap.set, LifecycleObject.setState]
  · simp [changeStateResolved, onChange, ManagerState.now, emit, Heap.set, LifecycleObject.setState]

/-- Claim C8: a startObject or stopObject call on an identifier the
store cannot resolve returns the not-found error and the manager state
completely unchanged — no event of any kind is emitted, no object is
mutated and no store update is performed. -/
theorem failed_transition_atomic (s : ManagerState) (id : ObjectId)
    (h : getObject id s = none) :
    startObject id s
      = (Except.error { message := "Lifecycle object not found: " ++ id.render }, s) ∧
    stopObject id s
      = (Except.error { message := "Lifecycle object not found: " ++ id.render }, s) := by
  unfold getObject at h
  constructor
  · simp [startObject, changeState, h]
  · simp [stopObject, changeState, h]

/-- Claim C9: with the in-memory store, persistence is by reference:
getObject after createObject yields the very reference createObject
returned, and after an in-place setAttribute on that reference — which
performs no store update — getObject still yields the same reference and
the mutation is observable through it. -/
theorem memoryDao_reference_persistence (s : ManagerState) (k : String) (v : AttrValue) :
    getObject ((createObject s).2.heap.cells (createObject s).1).id (createObject s).2
      = some (createObject s).1 ∧
    (setAttribute (createObject s).1 k v (createObject s).2).storage
      = (createObject s).2.storage ∧
    getObject ((createObject s).2.heap.cells (createObject s).1).id
        (setAttribute (createObject s).1 k v (createObject s).2)
      = some (createObject s).1 ∧
    attrGet ((setAttribute (createObject s).1 k v (createObject s).2).heap.cells
        (createObject s).1).attributes k = some v := by
  refine ⟨?_, ?_, ?_, ?_⟩
  · simp [createObject, factoryCreate, ManagerState.now, Heap.alloc, Heap.set, emit,
      LifecycleObject.setId, getObject, daoGet_daoSet_self]
  · simp [setAttribute, ManagerState.now, Heap.set]
  · simp [createObject, factoryCreate, ManagerState.now, Heap.alloc, Heap.set, emit,
      LifecycleObject.setId, getObject, setAttribute, daoGet_daoSet_self]
  · simp [createObject, factoryCreate, ManagerState.now, Heap.alloc, Heap.set, emit,
      LifecycleObject.setId, setAttribute, attrGet_attrSet_self]

/-- Claim C5 evaluation: the manager createObject declares no parameter,
so a call that supplies an initialProperties mapping has the mapping
ignored and the returned object carries an empty attribute bag, while
the DefaultLifecycleFactory create invoked directly with the same
mapping does seed the supplied key and value. -/
theorem createObject_ignores_initialProperties :
    (((createObjectWithProps [("color", AttrValue.str "red")] initialManager).2.heap.cells
        (createObjectWithProps [("color", AttrValue.str "red")] initialManager).1).attributes
      = []) ∧
    attrGet (((factoryCreate (some [("color", AttrValue.str "red")]) initialManager).2.heap.cells
        (factoryCreate (some [("color", AttrValue.str "red")]) initialManager).1).attributes)
        "color"
      = some (AttrValue.str "red") := by
  exact ⟨rfl, rfl⟩

/-- Claim C10: a successful startObject or stopObject changes only the
state field of the resolved object — its id, createdAt, updatedAt and
attribute map are untouched, so state reassignment does not refresh
updatedAt — while setAttribute and setAttributes always set updatedAt to
the current instant and deleteAttribute does so exactly when the key was
present (returning whether a removal happened). -/
theorem transition_frame_spec (s : ManagerState) (id : ObjectId) (r : Ref)
    (k : String) (v : AttrValue) (m : List (String × AttrValue))
    (h : getObject id s = some r) :
    ((startObject id s).2.heap.cells r).id = (s.heap.cells r).id ∧
    ((startObject id s).2.heap.cells r).createdAt = (s.heap.cells r).createdAt ∧
    ((startObject id s).2.heap.cells r).updatedAt = (s.heap.cells r).updatedAt ∧
    ((startObject id s).2.heap.cells r).attributes = (s.heap.cells r).attributes ∧
    ((startObject id s).2.heap.cells r).state = LifecycleStartedState ∧
    ((stopObject id s).2.heap.cells r).id = (s.heap.cells r).id ∧
    ((stopObject id s).2.heap.cells r).createdAt = (s.heap.cells r).createdAt ∧
    ((stopObject id s).2.heap.cells r).updatedAt = (s.heap.cells r).updatedAt ∧
    ((stopObject id s).2.heap.cells r).attributes = (s.heap.cells r).attributes ∧
    ((stopObject id s).2.heap.cells r).state = LifecycleStoppedState ∧
    ((setAttribute r k v s).heap.cells r).updatedAt = s.clock ∧
    ((setAttributes r m s).heap.cells r).updatedAt = s.clock ∧
    (deleteAttribute r k s).1 = (attrGet (s.heap.cells r).attributes k).isSome ∧
    ((deleteAttribute r k s).2.heap.cells r).updatedAt
      = (if (attrGet (s.heap.cells r).attributes k).isSome then s.clock
         else (s.heap.cells r).updatedAt) := by
  unfold getObject at h
  have hs1 : startObject id s = changeStateResolved r LifecycleStartedState s :=
    changeState_byId_resolved s id r LifecycleStartedState h
  have hs2 : stopObject id s = changeStateResolved r LifecycleStoppedState s :=
    changeState_byId_resolved s id r LifecycleStoppedState h
  rw [hs1, hs2]
  refine ⟨?_, ?_, ?_, ?_, ?_, ?_, ?_, ?_, ?_, ?_, ?_, ?_, ?_, ?_⟩
  · simp [changeStateResolved, onChange, ManagerState.now, emit, Heap.set, LifecycleObject.setState]
  · simp [changeStateResolved, onChange, ManagerState.now, emit, Heap.set, LifecycleObject.setState]
  · simp [changeStateResolved, onChange, ManagerState.now, emit, Heap.set, LifecycleObject.setState]
  · simp [changeStateResolved, onChange, ManagerState.now, emit, Heap.set, LifecycleObject.setState]
  · simp [changeStateResolved, onChange, ManagerState.now, emit, Heap.set, LifecycleObject.setState]
  · simp [changeStateResolved, onChange, ManagerState.now, emit, Heap.set, LifecycleObject.setState]
  · simp [changeStateResolved, onChange, ManagerState.now, emit, Heap.set, LifecycleObject.setState]
  · simp [changeStateResolved, onChange, ManagerState.now, emit, Heap.set, LifecycleObject.setState]
  · simp [changeStateResolved, onChange, ManagerState.now, emit, Heap.set, LifecycleObject.setState]
  · simp [changeStateResolved, onChange, ManagerState.now, emit, Heap.set, LifecycleObject.setState]
  · simp [setAttribute, ManagerState.now, Heap.set]
  · simp [setAttributes, ManagerState.now, Heap.set]
  · cases hA : attrGet (s.heap.cells r).attributes k <;>
      simp [deleteAttribute, hA, ManagerState.now, Heap.set]
  · cases hA : attrGet (s.heap.cells r).attributes k <;>
      simp [deleteAttribute, hA, ManagerState.now, Heap.set]

/-- Witness for claim C1 at the object created on a fresh manager, with
the started state as target. -/
theorem transition_order_spec_witness :
    startObject scenarioId scenarioS1
      = changeState (TransitionTarget.byId scenarioId) LifecycleStartedState scenarioS1 ∧
    stopObject scenarioId scenarioS1
      = changeState (TransitionTarget.byId scenarioId) LifecycleStoppedState scenarioS1 ∧
    (changeState (TransitionTarget.byId scenarioId) LifecycleStartedState scenarioS1).1
      = Except.ok () ∧
    (changeState (TransitionTarget.byId scenarioId) LifecycleStartedState scenarioS1).2
      = emit (Event.objectStateChanged scenarioRef
            (scenarioS1.heap.cells scenarioRef).state LifecycleStartedState scenarioS1.clock)
          (onChange scenarioRef
            { scenarioS1 with
              heap := scenarioS1.heap.set scenarioRef
                ((scenarioS1.heap.cells scenarioRef).setState
                  LifecycleStartedState) }).now.2 ∧
    (changeState (TransitionTarget.byId scenarioId) LifecycleStartedState scenarioS1).2.events
      = scenarioS1.events ++ [Event.objectStateChanged scenarioRef
          (scenarioS1.heap.cells scenarioRef).state LifecycleStartedState scenarioS1.clock] ∧
    getObject scenarioId
        (changeState (TransitionTarget.byId scenarioId) LifecycleStartedState scenarioS1).2
      = some scenarioRef ∧
    ((changeState (TransitionTarget.byId scenarioId) LifecycleStartedState
        scenarioS1).2.heap.cells scenarioRef).state = LifecycleStartedState :=
  transition_order_spec scenarioS1 scenarioId scenarioRef LifecycleStartedState (by decide)

/-- Witness for claim C3 at the unknown identifier ghost on a fresh
manager. -/
theorem notFound_error_spec_witness :
    (startObject (ObjectId.str "ghost") initialManager).1
      = Except.error
          { message := "Lifecycle object not found: " ++ (ObjectId.str "ghost").render } ∧
    (stopObject (ObjectId.str "ghost") initialManager).1
      = Except.error
          { message := "Lifecycle object not found: " ++ (ObjectId.str "ghost").render } :=
  notFound_error_spec initialManager (ObjectId.str "ghost") (by decide)

/-- Witness for claim C7 at the freshly created object (still in the
created state, never started), with a custom error state carrying an
extra message payload field. -/
theorem open_state_machine_spec_witness :
    (stopObject scenarioId scenarioS1).1 = Except.ok () ∧
    (changeState (TransitionTarget.byId scenarioId)
        ⟨"error", [("message", AttrValue.str "boom")]⟩ scenarioS1).1 = Except.ok () ∧
    getObject scenarioId
        (changeState (TransitionTarget.byId scenarioId)
          ⟨"error", [("message", AttrValue.str "boom")]⟩ scenarioS1).2
      = some scenarioRef ∧
    ((changeState (TransitionTarget.byId scenarioId)
        ⟨"error", [("message", AttrValue.str "boom")]⟩ scenarioS1).2.heap.cells
        scenarioRef).state = ⟨"error", [("message", AttrValue.str "boom")]⟩ ∧
    ((changeState (TransitionTarget.byId scenarioId)
        ⟨"error", [("message", AttrValue.str "boom")]⟩ scenarioS1).2.heap.cells
        scenarioRef).state.name = LifecycleState.name ⟨"error", [("message", AttrValue.str "boom")]⟩ ∧
    ((changeState (TransitionTarget.byId scenarioId)
        ⟨"error", [("message", AttrValue.str "boom")]⟩ scenarioS1).2.heap.cells
        scenarioRef).state.payload
      = LifecycleState.payload ⟨"error", [("message", AttrValue.str "boom")]⟩ :=
  open_state_machine_spec scenarioS1 scenarioId scenarioRef
    ⟨"error", [("message", AttrValue.str "boom")]⟩ (by decide)

/-- Witness for claim C8 at the unknown identifier ghost on a fresh
manager: the call returns the error and the very same state. -/
theorem failed_transition_atomic_witness :
    startObject (ObjectId.str "ghost") initialManager
      = (Except.error
          { message := "Lifecycle object not found: " ++ (ObjectId.str "ghost").render },
         initialManager) ∧
    stopObject (ObjectId.str "ghost") initialManager
      = (Except.error
          { message := "Lifecycle object not found: " ++ (ObjectId.str "ghost").render },
         initialManager) :=
  failed_transition_atomic initialManager (ObjectId.str "ghost") (by decide)

/-- Witness for claim C10 at the object created on a fresh manager, with
a sample attribute key, value and bulk mapping. -/
theorem transition_frame_spec_witness :
    ((startObject scenarioId scenarioS1).2.heap.cells scenarioRef).id
      = (scenarioS1.heap.cells scenarioRef).id ∧
    ((startObject scenarioId scenarioS1).2.heap.cells scenarioRef).createdAt
      = (scenarioS1.heap.cells scenarioRef).createdAt ∧
    ((startObject scenarioId scenarioS1).2.heap.cells scenarioRef).updatedAt
      = (scenarioS1.heap.cells scenarioRef).updatedAt ∧
    ((startObject scenarioId scenarioS1).2.heap.cells scenarioRef).attributes
      = (scenarioS1.heap.cells scenarioRef).attributes ∧
    ((startObject scenarioId scenarioS1).2.heap.cells scenarioRef).state
      = LifecycleStartedState ∧
    ((stopObject scenarioId scenarioS1).2.heap.cells scenarioRef).id
      = (scenarioS1.heap.cells scenarioRef).id ∧
    ((stopObject scenarioId scenarioS1).2.heap.cells scenarioRef).createdAt
      = (scenarioS1.heap.cells scenarioRef).createdAt ∧
    ((stopObject scenarioId scenarioS1).2.heap.cells scenarioRef).updatedAt
      = (scenarioS1.heap.cells scenarioRef).updatedAt ∧
    ((stopObject scenarioId scenarioS1).2.heap.cells scenarioRef).attributes
      = (scenarioS1.heap.cells scenarioRef).attributes ∧
    ((stopObject scenarioId scenarioS1).2.heap.cells scenarioRef).state
      = LifecycleStoppedState ∧
    ((setAttribute scenarioRef "color" (AttrValue.str "red") scenarioS1).heap.cells
        scenarioRef).updatedAt = scenarioS1.clock ∧
    ((setAttributes scenarioRef [("size", AttrValue.int 1)] scenarioS1).heap.cells
        scenarioRef).updatedAt = scenarioS1.clock ∧
    (deleteAttribute scenarioRef "color" scenarioS1).1
      = (attrGet (scenarioS1.heap.cells scenarioRef).attributes "color").isSome ∧
    ((deleteAttribute scenarioRef "color" scenarioS1).2.heap.cells scenarioRef).updatedAt
      = (if (attrGet (scenarioS1.heap.cells scenarioRef).attributes "color").isSome
         then scenarioS1.clock
         else (scenarioS1.heap.cells scenarioRef).updatedAt) :=
  transition_frame_spec scenarioS1 scenarioId scenarioRef "color" (AttrValue.str "red")
    [("size", AttrValue.int 1)] (by decide)

end Unicycle4T
